import Mathlib

/-!
# getnvoi/cli example applications: handlers, connector and process lifecycle

Shallow embedding of `examples/golang/main.go` (embedded SQLite store) and
`examples/golang-postgres-multi/main.go` (networked PostgreSQL store), together with
`examples/golang/models/user.go`.

Everything the Go code obtains from outside the program (the clock, the random source, the
host name, the outcome of each store or operating-system call) is an explicit input of the
embedded function.  Everything it does to the outside (store calls, pool settings, log lines)
is recorded in an explicit list of calls, in program order.
-/

set_option autoImplicit false

/-- Go `error` value: `none` is `nil`, `some msg` an error carrying its message. -/
abbrev error := Option String

namespace http

def StatusOK : Nat := 200
def StatusInternalServerError : Nat := 500
def StatusBadGateway : Nat := 502
def StatusServiceUnavailable : Nat := 503
def StatusGatewayTimeout : Nat := 504

end http

namespace models

/-- The `User` struct of `models/user.go`.  Times are nanoseconds since the epoch, the zero
time being `0`; `DeletedAt` is the nullable soft-delete column. -/
structure User where
  ID : Nat
  Name : String
  Email : String
  CreatedAt : Int
  UpdatedAt : Int
  DeletedAt : Option Int
  deriving DecidableEq, Repr

end models

namespace gin

/-- A value stored under a key of a `gin.H` map. -/
inductive Value where
  | str (s : String)
  | int (n : Int)
  | user (u : models.User)
  | users (us : List models.User)
  deriving DecidableEq, Repr

/-- The `gin.H` map literal, as the list of its entries in source order. -/
abbrev H := List (String × Value)

/-- What a handler leaves on the `gin.Context`: the status code, the JSON object written as
the body (`none` when nothing was written) and whether the handler chain was aborted. -/
structure Response where
  status : Nat
  body : Option H
  aborted : Bool
  deriving DecidableEq, Repr

/-- Go `c.JSON(code, obj)`. -/
def JSON (code : Nat) (obj : H) : Response :=
  { status := code, body := some obj, aborted := false }

/-- Go `c.AbortWithStatus(code)`: the status is written with no body and the chain is aborted. -/
def AbortWithStatus (code : Nat) : Response :=
  { status := code, body := none, aborted := true }

/-- Go `gin.SetMode(value)`: the modes debug, release and test are accepted, and so is the
empty string (which stands for the default mode); any other value panics.  Returns the panic
message, `none` when the mode is accepted. -/
def SetMode (value : String) : Option String :=
  if value = "" ∨ value = "debug" ∨ value = "release" ∨ value = "test" then none
  else some ("gin mode unknown: " ++ value ++ " (available mode: debug release test)")

/-- Keys of the JSON object in the body; empty when there is no body. -/
def Response.keys (r : Response) : List String :=
  match r.body with
  | none => []
  | some obj => obj.map Prod.fst

/-- Value under `key` in the body, if any. -/
def Response.lookup (r : Response) (key : String) : Option Value :=
  match r.body with
  | none => none
  | some obj => obj.lookup key

end gin

namespace fmt

/-- Decimal rendering of the verb `%d` for an integer: an optional minus sign followed by the
digits of the magnitude, without padding. -/
def formatInt (t : Int) : String :=
  if t < 0 then "-" ++ Nat.repr t.natAbs else Nat.repr t.natAbs

/-- Value of a decimal digit character. -/
def digitVal (c : Char) : Nat := c.toNat - 48

end fmt

namespace gorm

/-- The users table as the handlers see it through gorm: every row, soft-deleted ones
included, in insertion order. -/
abbrev DB := List models.User

/-- Primary key the store generates for a row inserted with a zero `ID`. -/
def DB.freshID (db : DB) : Nat :=
  (db.map (·.ID)).foldl max 0 + 1

/-- The row the store writes for `u`: a generated key when its `ID` is zero, the store clock
`now` in its zero time columns. -/
def DB.stamp (db : DB) (u : models.User) (now : Int) : models.User :=
  { u with
    ID := if u.ID = 0 then db.freshID else u.ID
    CreatedAt := if u.CreatedAt = 0 then now else u.CreatedAt
    UpdatedAt := if u.UpdatedAt = 0 then now else u.UpdatedAt }

/-- Go `db.Create(&u).Error` on the users table.  `fault` is the outcome of the round trip to
the store (`none` when it goes through).  The insert is refused when the primary key or the
unique `email` index already holds the value of the row.  Returns the store, the struct as
`Create` leaves it, and the error. -/
def DB.Create (db : DB) (u : models.User) (now : Int) (fault : error) :
    DB × models.User × error :=
  match fault with
  | some msg => (db, u, some msg)
  | none =>
    let row := db.stamp u now
    if db.any (fun r => r.ID = row.ID || r.Email = row.Email) then
      (db, row, some "UNIQUE constraint failed")
    else
      (db ++ [row], row, none)

/-- Go `db.Find(&users).Error` on the users table: the rows whose soft-delete column is null,
or the error of the round trip. -/
def DB.Find (db : DB) (fault : error) : List models.User × error :=
  match fault with
  | some msg => ([], some msg)
  | none => (db.filter (fun r => r.DeletedAt = none), none)

/-- Number of rows that are not soft-deleted. -/
def DB.liveCount (db : DB) : Nat :=
  (db.filter (fun r => r.DeletedAt = none)).length

/-- A call a handler made on the store handle, with the error it returned. -/
inductive Call where
  | create (u : models.User) (err : error)
  | find (err : error)
  deriving DecidableEq, Repr

end gorm

/-- Outcome of the two calls of the liveness probe and the values the success body shows. -/
structure HealthEnv where
  dbErr : error
  pingErr : error
  timeRFC3339 : String
  hostname : String

/-- Inputs of one visit: the two values `rand.Intn` returns, the `UnixNano` clock value read
for the email, the store clock, the outcome of the two round trips, the host name. -/
structure VisitEnv where
  r1 : Nat
  r2 : Nat
  unixNano : Int
  storeNow : Int
  createFault : error
  findFault : error
  hostname : String

/-- Both `rand.Intn` results are in the range `rand.Intn(10)` draws from. -/
def VisitEnv.randOk (e : VisitEnv) : Prop := e.r1 < 10 ∧ e.r2 < 10

instance (e : VisitEnv) : Decidable e.randOk :=
  inferInstanceAs (Decidable (e.r1 < 10 ∧ e.r2 < 10))

/-- What a visit leaves behind: the response, the store, the store calls in order. -/
structure VisitResult where
  resp : gin.Response
  db : gorm.DB
  calls : List gorm.Call
  deriving DecidableEq, Repr

/-- The errors the store calls of a visit returned, in order. -/
def VisitResult.callErrs (r : VisitResult) : List error :=
  r.calls.map fun c =>
    match c with
    | .create _ err => err
    | .find err => err

/-- The email addresses a visit handed to `Create`. -/
def VisitResult.emails (r : VisitResult) : List String :=
  r.calls.filterMap fun c =>
    match c with
    | .create u _ => some u.Email
    | .find _ => none

namespace time

/-- Go `time.Second`, in nanoseconds. -/
def Second : Nat := 1000000000

/-- Go `time.Hour`, in nanoseconds. -/
def Hour : Nat := 60 * (60 * Second)

end time

/-- A call `initDB` makes outside the program, in program order. -/
inductive InitCall where
  | mkdirAll (path : String) (perm : Nat)
  | getenv (name : String)
  | gormOpen (dsn : String)
  | sqlDB
  | ping
  | setMaxIdleConns (n : Nat)
  | setMaxOpenConns (n : Nat)
  | setConnMaxLifetime (d : Nat)
  | println (msg : String)
  deriving DecidableEq, Repr

/-- What `initDB` reads from outside: the value of `DATABASE_URL` (empty when unset) and the
error each call returns when it is reached. -/
structure InitEnv where
  databaseURL : String
  mkdirErr : error
  openErr : error
  dbErr : error
  pingErr : error

/-- The `*gorm.DB` handle `initDB` hands out: its data source and the pool limits in force
(`database/sql` starts with 2 idle connections, no limit on open ones, no lifetime). -/
structure Conn where
  dsn : String
  maxIdleConns : Nat
  maxOpenConns : Nat
  connMaxLifetime : Nat
  deriving DecidableEq, Repr

/-- The pair `initDB` returns, with the calls it made. -/
structure InitResult where
  db : Option Conn
  err : error
  calls : List InitCall
  deriving DecidableEq, Repr

/-- Go `fmt.Errorf(msg ++ ": %w", err)`. -/
def wrapErr (msg : String) (err : String) : String := msg ++ ": " ++ err

/-- The handler functions a route can be bound to. -/
inductive Handler where
  | healthCheck
  | handleVisit
  | handleError
  deriving DecidableEq, Repr

/-- The engine `setupRouter` returns: the mode set from `GIN_MODE`, if any, and the `GET`
routes in registration order. -/
structure Router where
  mode : Option String
  routes : List (String × Handler)
  deriving DecidableEq, Repr

/-- The two signals `main` registers for. -/
inductive Signal where
  | SIGINT
  | SIGTERM
  deriving DecidableEq, Repr

/-- What `main` reads from outside, from its first statement on: the inputs of `initDB`, the
value `setupRouter` reads from `GIN_MODE` (empty when unset), the error of
`AutoMigrate`, the error `ListenAndServe` returns while `main` waits for a signal (`none`: it
serves until `Shutdown`), the signal that arrives, and the error of `Shutdown`. -/
structure MainEnv where
  init : InitEnv
  ginMode : String
  migrateErr : error
  listenErr : error
  signal : Signal
  shutdownErr : error

/-- A step of `main`, in program order. -/
inductive MainEvent where
  | initDB (calls : List InitCall)
  | autoMigrate
  | setupRouter (r : Router)
  | println (msg : String)
  | listenAndServe (addr : String)
  | notify (sigs : List Signal)
  | received (s : Signal)
  | shutdown (budget : Nat)
  | fatalf (msg : String)
  | panics (msg : String)
  deriving DecidableEq, Repr

/-- How the process ends: the exit code (`0` when `main` returns, `1` after `log.Fatalf`, `2`
after a panic nothing recovers) and the steps taken. -/
structure MainResult where
  exitCode : Nat
  events : List MainEvent
  deriving DecidableEq, Repr

/-! ## `examples/golang/main.go` -/

namespace Golang

/-- Go `generateRandomName`, given the two `rand.Intn` results; `none` is the index-out-of-range
panic. -/
def generateRandomName (r1 r2 : Nat) : Option String :=
  let firstNames := ["Alice", "Bob", "Charlie", "Diana", "Eve", "Frank", "Grace", "Henry", "Ivy", "Jack"]
  let lastNames := ["Smith", "Johnson", "Williams", "Brown", "Jones", "Garcia", "Miller", "Davis", "Rodriguez", "Martinez"]
  match firstNames[r1]?, lastNames[r2]? with
  | some firstName, some lastName => some (firstName ++ " " ++ lastName)
  | _, _ => none

/-- The email of the new user: `fmt.Sprintf("user-xxx%d@example.com", time.Now().UnixNano())`. -/
def visitEmail (unixNano : Int) : String :=
  "user-xxx" ++ fmt.formatInt unixNano ++ "@example.com"

/-- Go `healthCheck`. -/
def healthCheck (e : HealthEnv) : gin.Response :=
  match e.dbErr with
  | some _ =>
    gin.JSON http.StatusServiceUnavailable
      [("status", .str "unhealthy"), ("error", .str "database connection failed")]
  | none =>
    match e.pingErr with
    | some _ =>
      gin.JSON http.StatusServiceUnavailable
        [("status", .str "unhealthy"), ("error", .str "database ping failed")]
    | none =>
      gin.JSON http.StatusOK
        [("status", .str "healthy"), ("service", .str "nvoi-example-app"),
         ("time", .str e.timeRFC3339)]

/-- Go `handleVisit` on the store `db`; `none` is a panic of `generateRandomName`. -/
def handleVisit (db : gorm.DB) (e : VisitEnv) : Option VisitResult :=
  match generateRandomName e.r1 e.r2 with
  | none => none
  | some name =>
    let newUser : models.User :=
      { ID := 0, Name := name, Email := visitEmail e.unixNano,
        CreatedAt := 0, UpdatedAt := 0, DeletedAt := none }
    match db.Create newUser e.storeNow e.createFault with
    | (db1, _, some err) =>
      some { resp := gin.JSON http.StatusInternalServerError
                      [("error", .str "Failed to create user")],
             db := db1, calls := [.create newUser (some err)] }
    | (db1, created, none) =>
      match db1.Find e.findFault with
      | (_, some err) =>
        some { resp := gin.JSON http.StatusInternalServerError
                        [("error", .str "Failed to fetch users")],
               db := db1, calls := [.create newUser none, .find (some err)] }
      | (users, none) =>
        some { resp := gin.JSON http.StatusOK
                        [("hostname", .str e.hostname),
                         ("message", .str "User created on this visit!"),
                         ("new_user", .user created),
                         ("total_users", .int users.length),
                         ("all_users", .users users)],
               db := db1, calls := [.create newUser none, .find none] }

/-- Go `handleError`, given the path parameter `code`. -/
def handleError (code : String) : gin.Response :=
  if code = "502" then gin.AbortWithStatus http.StatusBadGateway
  else if code = "503" then gin.AbortWithStatus http.StatusServiceUnavailable
  else if code = "504" then gin.AbortWithStatus http.StatusGatewayTimeout
  else gin.JSON http.StatusOK [("usage", .str "/error/\x7b502,503,504\x7d")]

/-- Go `initDB` of the SQLite variant. -/
def initDB (e : InitEnv) : InitResult :=
  match e.mkdirErr with
  | some err =>
    { db := none, err := some (wrapErr "failed to create data directory" err),
      calls := [.mkdirAll "data" 0o755] }
  | none =>
    match e.openErr with
    | some err =>
      { db := none, err := some (wrapErr "failed to connect to database" err),
        calls := [.mkdirAll "data" 0o755, .gormOpen "data/app.db"] }
    | none =>
      { db := some { dsn := "data/app.db", maxIdleConns := 2, maxOpenConns := 0,
                     connMaxLifetime := 0 },
        err := none,
        calls := [.mkdirAll "data" 0o755, .gormOpen "data/app.db",
                  .println "Database connected successfully"] }

/-- Go `setupRouter`, given the value of `GIN_MODE`: the router, or the message of the panic
of `gin.SetMode`. -/
def setupRouter (ginMode : String) : Except String Router :=
  if ginMode ≠ "" then
    match gin.SetMode ginMode with
    | some msg => .error msg
    | none => .ok { mode := some ginMode, routes := [("/health", .healthCheck), ("/", .handleVisit),
                    ("/error/:code", .handleError)] }
  else
    .ok { mode := none, routes := [("/health", .healthCheck), ("/", .handleVisit),
                    ("/error/:code", .handleError)] }

/-- Go `main`. -/
def main (e : MainEnv) : MainResult :=
  let r := initDB e.init
  match r.err with
  | some err =>
    { exitCode := 1,
      events := [.initDB r.calls, .fatalf (wrapErr "Failed to initialize database" err)] }
  | none =>
    match e.migrateErr with
    | some err =>
      { exitCode := 1,
        events := [.initDB r.calls, .autoMigrate,
                   .fatalf (wrapErr "Failed to migrate database" err)] }
    | none =>
      match setupRouter e.ginMode with
      | .error msg =>
        { exitCode := 2, events := [.initDB r.calls, .autoMigrate, .panics msg] }
      | .ok router =>
        let started : List MainEvent :=
          [.initDB r.calls, .autoMigrate, .setupRouter router,
           .println "Starting server on :3000", .listenAndServe ":3000"]
        match e.listenErr with
        | some err =>
          { exitCode := 1,
            events := started ++ [.fatalf (wrapErr "Server failed to start" err)] }
        | none =>
          let drained : List MainEvent :=
            started ++ [.notify [.SIGINT, .SIGTERM], .received e.signal,
                        .println "Shutting down server...", .shutdown (5 * time.Second)]
          match e.shutdownErr with
          | some err =>
            { exitCode := 1,
              events := drained ++ [.fatalf (wrapErr "Server forced to shutdown" err)] }
          | none =>
            { exitCode := 0, events := drained ++ [.println "Server exited"] }

end Golang

/-! ## `examples/golang-postgres-multi/main.go` -/

namespace GolangPostgresMulti

/-- Go `generateRandomName`, given the two `rand.Intn` results; `none` is the index-out-of-range
panic. -/
def generateRandomName (r1 r2 : Nat) : Option String :=
  let firstNames := ["Alice", "Bob", "Charlie", "Diana", "Eve", "Frank", "Grace", "Henry", "Ivy", "Jack"]
  let lastNames := ["Smith", "Johnson", "Williams", "Brown", "Jones", "Garcia", "Miller", "Davis", "Rodriguez", "Martinez"]
  match firstNames[r1]?, lastNames[r2]? with
  | some firstName, some lastName => some (firstName ++ " " ++ lastName)
  | _, _ => none

/-- The email of the new user: `fmt.Sprintf("user-%d@example.com", time.Now().UnixNano())`. -/
def visitEmail (unixNano : Int) : String :=
  "user-" ++ fmt.formatInt unixNano ++ "@example.com"

/-- Go `healthCheck`. -/
def healthCheck (e : HealthEnv) : gin.Response :=
  match e.dbErr with
  | some _ =>
    gin.JSON http.StatusServiceUnavailable
      [("status", .str "unhealthy"), ("error", .str "database connection failed")]
  | none =>
    match e.pingErr with
    | some _ =>
      gin.JSON http.StatusServiceUnavailable
        [("status", .str "unhealthy"), ("error", .str "database ping failed")]
    | none =>
      gin.JSON http.StatusOK
        [("status", .str "healthy"), ("service", .str "golang-postgres-multi"),
         ("hostname", .str e.hostname), ("time", .str e.timeRFC3339)]

/-- Go `handleVisit` on the store `db`; `none` is a panic of `generateRandomName`. -/
def handleVisit (db : gorm.DB) (e : VisitEnv) : Option VisitResult :=
  match generateRandomName e.r1 e.r2 with
  | none => none
  | some name =>
    let newUser : models.User :=
      { ID := 0, Name := name, Email := visitEmail e.unixNano,
        CreatedAt := 0, UpdatedAt := 0, DeletedAt := none }
    match db.Create newUser e.storeNow e.createFault with
    | (db1, _, some err) =>
      some { resp := gin.JSON http.StatusInternalServerError
                      [("error", .str "Failed to create user")],
             db := db1, calls := [.create newUser (some err)] }
    | (db1, created, none) =>
      match db1.Find e.findFault with
      | (_, some err) =>
        some { resp := gin.JSON http.StatusInternalServerError
                        [("error", .str "Failed to fetch users")],
               db := db1, calls := [.create newUser none, .find (some err)] }
      | (users, none) =>
        some { resp := gin.JSON http.StatusOK
                        [("hostname", .str e.hostname),
                         ("message", .str "User created on this visit!"),
                         ("new_user", .user created),
                         ("total_users", .int users.length),
                         ("all_users", .users users)],
               db := db1, calls := [.create newUser none, .find none] }

/-- Go `initDB` of the PostgreSQL variant. -/
def initDB (e : InitEnv) : InitResult :=
  if e.databaseURL = "" then
    { db := none, err := some "DATABASE_URL environment variable not set",
      calls := [.getenv "DATABASE_URL"] }
  else
    match e.openErr with
    | some err =>
      { db := none, err := some (wrapErr "failed to connect to database" err),
        calls := [.getenv "DATABASE_URL", .gormOpen e.databaseURL] }
    | none =>
      match e.dbErr with
      | some err =>
        { db := none, err := some (wrapErr "failed to get database instance" err),
          calls := [.getenv "DATABASE_URL", .gormOpen e.databaseURL, .sqlDB] }
      | none =>
        match e.pingErr with
        | some err =>
          { db := none, err := some (wrapErr "failed to ping database" err),
            calls := [.getenv "DATABASE_URL", .gormOpen e.databaseURL, .sqlDB, .ping] }
        | none =>
          { db := some { dsn := e.databaseURL, maxIdleConns := 10, maxOpenConns := 100,
                         connMaxLifetime := time.Hour },
            err := none,
            calls := [.getenv "DATABASE_URL", .gormOpen e.databaseURL, .sqlDB, .ping,
                      .setMaxIdleConns 10, .setMaxOpenConns 100,
                      .setConnMaxLifetime time.Hour,
                      .println "Database connected successfully"] }

/-- Go `setupRouter`, given the value of `GIN_MODE`: the router, or the message of the panic
of `gin.SetMode`. -/
def setupRouter (ginMode : String) : Except String Router :=
  if ginMode ≠ "" then
    match gin.SetMode ginMode with
    | some msg => .error msg
    | none => .ok { mode := some ginMode, routes := [("/health", .healthCheck), ("/", .handleVisit)] }
  else
    .ok { mode := none, routes := [("/health", .healthCheck), ("/", .handleVisit)] }

/-- Go `main`. -/
def main (e : MainEnv) : MainResult :=
  let r := initDB e.init
  match r.err with
  | some err =>
    { exitCode := 1,
      events := [.initDB r.calls, .fatalf (wrapErr "Failed to initialize database" err)] }
  | none =>
    match e.migrateErr with
    | some err =>
      { exitCode := 1,
        events := [.initDB r.calls, .autoMigrate,
                   .fatalf (wrapErr "Failed to migrate database" err)] }
    | none =>
      match setupRouter e.ginMode with
      | .error msg =>
        { exitCode := 2, events := [.initDB r.calls, .autoMigrate, .panics msg] }
      | .ok router =>
        let started : List MainEvent :=
          [.initDB r.calls, .autoMigrate, .setupRouter router,
           .println "Starting server on :3000", .listenAndServe ":3000"]
        match e.listenErr with
        | some err =>
          { exitCode := 1,
            events := started ++ [.fatalf (wrapErr "Server failed to start" err)] }
        | none =>
          let drained : List MainEvent :=
            started ++ [.notify [.SIGINT, .SIGTERM], .received e.signal,
                        .println "Shutting down server...", .shutdown (5 * time.Second)]
          match e.shutdownErr with
          | some err =>
            { exitCode := 1,
              events := drained ++ [.fatalf (wrapErr "Server forced to shutdown" err)] }
          | none =>
            { exitCode := 0, events := drained ++ [.println "Server exited"] }

end GolangPostgresMulti

/-! ## Both variants side by side -/

/-- The two example applications. -/
inductive Variant where
  | sqlite
  | postgres
  deriving DecidableEq, Repr

/-- The `handleVisit` of a variant. -/
def handleVisitOf : Variant → gorm.DB → VisitEnv → Option VisitResult
  | .sqlite => Golang.handleVisit
  | .postgres => GolangPostgresMulti.handleVisit

/-- The email construction of a variant. -/
def visitEmailOf : Variant → Int → String
  | .sqlite => Golang.visitEmail
  | .postgres => GolangPostgresMulti.visitEmail

/-- The `initDB` of a variant. -/
def initDBOf : Variant → InitEnv → InitResult
  | .sqlite => Golang.initDB
  | .postgres => GolangPostgresMulti.initDB

/-- The `setupRouter` of a variant. -/
def setupRouterOf : Variant → String → Except String Router
  | .sqlite => Golang.setupRouter
  | .postgres => GolangPostgresMulti.setupRouter

/-- The `main` of a variant. -/
def mainOf : Variant → MainEnv → MainResult
  | .sqlite => Golang.main
  | .postgres => GolangPostgresMulti.main

/-- Successive visits on a store nothing else touches: each visit runs on the store the
previous one left. -/
def runVisits (h : gorm.DB → VisitEnv → Option VisitResult) :
    gorm.DB → List VisitEnv → Option (List VisitResult)
  | _, [] => some []
  | db, e :: es =>
    match h db e with
    | none => none
    | some r =>
      match runVisits h r.db es with
      | none => none
      | some rs => some (r :: rs)

/-- The `total_users` values of the responses that carry one, in order. -/
def totalUsers (rs : List VisitResult) : List Int :=
  rs.filterMap fun r =>
    match r.resp.lookup "total_users" with
    | some (.int n) => some n
    | _ => none

/-- The email addresses generated by the visits, in order. -/
def generatedEmails (rs : List VisitResult) : List String :=
  (rs.map VisitResult.emails).flatten

/-- A visit used to evaluate the handlers: indices 3 and 7, a clock value, no store fault. -/
def sampleVisit : VisitEnv :=
  { r1 := 3, r2 := 7, unixNano := 1700000000000000000, storeNow := 1700000000000000500,
    createFault := none, findFault := none, hostname := "web-1" }

/-- A store used to evaluate the handlers: one live row and one soft-deleted row. -/
def sampleStore : gorm.DB :=
  [{ ID := 1, Name := "Alice Smith", Email := "user-41@example.com",
     CreatedAt := 41, UpdatedAt := 41, DeletedAt := none },
   { ID := 2, Name := "Bob Jones", Email := "user-42@example.com",
     CreatedAt := 42, UpdatedAt := 42, DeletedAt := some 50 }]

/-- A run used to evaluate the handlers: a visit that succeeds, one whose read fails, one
whose insert fails, and one more that succeeds. -/
def sampleRun : List VisitEnv :=
  [sampleVisit,
   { sampleVisit with r1 := 0, unixNano := 1700000000000000001, findFault := some "timeout" },
   { sampleVisit with r2 := 9, unixNano := 1700000000000000002, createFault := some "down" },
   { sampleVisit with r1 := 9, r2 := 0, unixNano := 1700000000000000003 }]

/-- Two visits that differ in their names and host but read the same clock value. -/
def sameInstantVisits : List VisitEnv :=
  [sampleVisit, { sampleVisit with r1 := 1, r2 := 2, hostname := "web-2" }]

/-- Steps of `main` that belong to the serving state: building the router and listening. -/
def MainEvent.startsServing : MainEvent → Bool
  | .setupRouter _ => true
  | .listenAndServe _ => true
  | _ => false

/-- The pool-limit calls of `initDB`. -/
def InitCall.setsPool : InitCall → Bool
  | .setMaxIdleConns _ => true
  | .setMaxOpenConns _ => true
  | .setConnMaxLifetime _ => true
  | _ => false

/-- Calls of `initDB` that reach for the store. -/
def InitCall.connects : InitCall → Bool
  | .gormOpen _ => true
  | .sqlDB => true
  | .ping => true
  | _ => false

/-- An environment in which every call of `initDB` goes through. -/
def sampleInit : InitEnv :=
  { databaseURL := "postgres://app@db/app", mkdirErr := none, openErr := none,
    dbErr := none, pingErr := none }

/-- An environment in which start-up succeeds, `SIGTERM` arrives and `Shutdown` runs out of
its budget. -/
def sampleMain : MainEnv :=
  { init := sampleInit, ginMode := "release", migrateErr := none, listenErr := none,
    signal := .SIGTERM, shutdownErr := some "context deadline exceeded" }

/-! ## Theorems -/

/-! ### Decimal rendering is injective -/

theorem digitVal_digitChar : ∀ d < 10, fmt.digitVal (Nat.digitChar d) = d := by decide

theorem digitChar_ne_minus : ∀ d < 10, Nat.digitChar d ≠ '-' := by decide

theorem toDigitsCore_eq_digits (fuel : Nat) :
    ∀ (n : Nat) (ds : List Char), 0 < n → n < fuel →
      Nat.toDigitsCore 10 fuel n ds = ((Nat.digits 10 n).reverse.map Nat.digitChar) ++ ds := by
  induction fuel with
  | zero => intro n ds _ h; omega
  | succ fuel ih =>
    intro n ds hpos hlt
    rw [Nat.digits_def' (by norm_num) hpos]
    simp only [Nat.toDigitsCore]
    by_cases h0 : n / 10 = 0
    · simp [h0]
    · rw [if_neg h0, ih (n / 10) _ (Nat.pos_of_ne_zero h0) (by omega)]
      simp

theorem toDigits_eq_digits (n : Nat) (h : 0 < n) :
    Nat.toDigits 10 n = (Nat.digits 10 n).reverse.map Nat.digitChar := by
  rw [Nat.toDigits, toDigitsCore_eq_digits (n + 1) n [] h (by omega)]
  simp

theorem toDigits_zero : Nat.toDigits 10 0 = ['0'] := by decide

/-- Reading the digits back gives the number. -/
theorem decode_toDigits (n : Nat) :
    Nat.ofDigits 10 ((Nat.toDigits 10 n).map fmt.digitVal).reverse = n := by
  rcases Nat.eq_zero_or_pos n with rfl | h
  · rw [toDigits_zero]; decide
  · rw [toDigits_eq_digits n h]
    have hmap : ∀ l : List Nat, (∀ d ∈ l, d < 10) →
        (l.map Nat.digitChar).map fmt.digitVal = l := by
      intro l hl
      induction l with
      | nil => rfl
      | cons a l ih =>
        simp only [List.map_cons]
        rw [digitVal_digitChar a (hl a (List.mem_cons_self _ _)),
          ih (fun d hd => hl d (List.mem_cons_of_mem _ hd))]
    rw [hmap _ (fun d hd => Nat.digits_lt_base (by norm_num) (List.mem_reverse.mp hd))]
    rw [List.reverse_reverse, Nat.ofDigits_digits]

theorem toDigits_injective {n m : Nat} (h : Nat.toDigits 10 n = Nat.toDigits 10 m) : n = m := by
  have := decode_toDigits n
  rw [h, decode_toDigits m] at this
  exact this.symm

theorem toDigits_no_minus (n : Nat) : ∀ c ∈ Nat.toDigits 10 n, c ≠ '-' := by
  rcases Nat.eq_zero_or_pos n with rfl | h
  · rw [toDigits_zero]; decide
  · rw [toDigits_eq_digits n h]
    intro c hc
    obtain ⟨d, hd, rfl⟩ := List.mem_map.mp hc
    exact digitChar_ne_minus d (Nat.digits_lt_base (by norm_num) (List.mem_reverse.mp hd))

theorem formatInt_data (t : Int) :
    (fmt.formatInt t).data =
      if t < 0 then '-' :: Nat.toDigits 10 t.natAbs else Nat.toDigits 10 t.natAbs := by
  unfold fmt.formatInt
  split <;> simp [Nat.repr, List.asString, String.data_append]

theorem formatInt_injective {t1 t2 : Int} (h : fmt.formatInt t1 = fmt.formatInt t2) :
    t1 = t2 := by
  have hd := congrArg String.data h
  rw [formatInt_data, formatInt_data] at hd
  by_cases h1 : t1 < 0 <;> by_cases h2 : t2 < 0
  · rw [if_pos h1, if_pos h2] at hd
    have := toDigits_injective (List.cons_injective hd)
    omega
  · rw [if_pos h1, if_neg h2] at hd
    exact absurd rfl (toDigits_no_minus t2.natAbs '-' (hd ▸ List.mem_cons_self _ _))
  · rw [if_neg h1, if_pos h2] at hd
    exact absurd rfl (toDigits_no_minus t1.natAbs '-' (hd ▸ List.mem_cons_self _ _))
  · rw [if_neg h1, if_neg h2] at hd
    have := toDigits_injective hd
    omega

/-! ### The store calls -/

/-- An insert either fails and leaves the store as it was, or appends exactly one row that
carries the name, email and soft-delete marker it was given. -/
theorem Create_cases (db : gorm.DB) (u : models.User) (now : Int) (fault : error) :
    (∃ u1 err, db.Create u now fault = (db, u1, some err)) ∨
    (∃ row, db.Create u now fault = (db ++ [row], row, none) ∧ fault = none ∧
      row.Email = u.Email ∧ row.Name = u.Name ∧ row.DeletedAt = u.DeletedAt ∧
      (∀ r ∈ db, r.Email ≠ row.Email ∧ r.ID ≠ row.ID)) := by
  cases fault with
  | some msg => exact Or.inl ⟨u, msg, rfl⟩
  | none =>
    by_cases hdup : (db.any fun r => r.ID = (db.stamp u now).ID || r.Email = (db.stamp u now).Email) = true
    · refine Or.inl ⟨db.stamp u now, "UNIQUE constraint failed", ?_⟩
      simp only [gorm.DB.Create, hdup, if_true]
    · refine Or.inr ⟨db.stamp u now, ?_, rfl, rfl, rfl, rfl, ?_⟩
      · simp only [gorm.DB.Create, hdup]
        rfl
      · intro r hr
        simp only [List.any_eq_true, not_exists, not_and, Bool.or_eq_true, decide_eq_true_eq,
          not_or] at hdup
        exact ⟨(hdup r hr).2, (hdup r hr).1⟩

theorem Find_cases (db : gorm.DB) (fault : error) :
    (∃ err, fault = some err ∧ db.Find fault = ([], some err)) ∨
    (fault = none ∧ db.Find fault = (db.filter (fun r => r.DeletedAt = none), none)) := by
  cases fault with
  | some msg => exact Or.inl ⟨msg, rfl, rfl⟩
  | none => exact Or.inr ⟨rfl, rfl⟩

/-! ### The visit handler, case by case -/

theorem generateRandomName_some :
    ∀ r1 < 10, ∀ r2 < 10, (Golang.generateRandomName r1 r2).isSome = true := by
  decide

/-- The three ways the body of `handleVisit` can go once the name is drawn, for an email
construction `mk`. -/
theorem visit_body_cases (mk : Int → String) (db : gorm.DB) (e : VisitEnv) (name : String)
    (out : Option VisitResult)
    (hout : out =
      match db.Create { ID := 0, Name := name, Email := mk e.unixNano,
                        CreatedAt := 0, UpdatedAt := 0, DeletedAt := none }
              e.storeNow e.createFault with
      | (db1, _, some err) =>
        some { resp := gin.JSON http.StatusInternalServerError
                        [("error", .str "Failed to create user")],
               db := db1,
               calls := [.create { ID := 0, Name := name, Email := mk e.unixNano,
                                   CreatedAt := 0, UpdatedAt := 0, DeletedAt := none }
                           (some err)] }
      | (db1, created, none) =>
        match db1.Find e.findFault with
        | (_, some err) =>
          some { resp := gin.JSON http.StatusInternalServerError
                          [("error", .str "Failed to fetch users")],
                 db := db1,
                 calls := [.create { ID := 0, Name := name, Email := mk e.unixNano,
                                     CreatedAt := 0, UpdatedAt := 0, DeletedAt := none } none,
                           .find (some err)] }
        | (users, none) =>
          some { resp := gin.JSON http.StatusOK
                          [("hostname", .str e.hostname),
                           ("message", .str "User created on this visit!"),
                           ("new_user", .user created),
                           ("total_users", .int users.length),
                           ("all_users", .users users)],
                 db := db1,
                 calls := [.create { ID := 0, Name := name, Email := mk e.unixNano,
                                     CreatedAt := 0, UpdatedAt := 0, DeletedAt := none } none,
                           .find none] }) :
    ∃ res, out = some res ∧
      ∃ newUser : models.User,
        newUser = { ID := 0, Name := name, Email := mk e.unixNano,
                    CreatedAt := 0, UpdatedAt := 0, DeletedAt := none } ∧
      ((∃ err, res.calls = [.create newUser (some err)] ∧ res.db = db ∧
          res.resp = gin.JSON 500 [("error", .str "Failed to create user")]) ∨
       (∃ row err, res.calls = [.create newUser none, .find (some err)] ∧
          e.createFault = none ∧ e.findFault = some err ∧
          res.db = db ++ [row] ∧ row.Email = newUser.Email ∧ row.Name = name ∧
          row.DeletedAt = none ∧
          res.resp = gin.JSON 500 [("error", .str "Failed to fetch users")]) ∨
       (∃ row, res.calls = [.create newUser none, .find none] ∧
          e.createFault = none ∧ e.findFault = none ∧
          res.db = db ++ [row] ∧ row.Email = newUser.Email ∧ row.Name = name ∧
          row.DeletedAt = none ∧
          res.resp = gin.JSON 200
            [("hostname", .str e.hostname),
             ("message", .str "User created on this visit!"),
             ("new_user", .user row),
             ("total_users", .int ((db ++ [row]).filter (fun r => r.DeletedAt = none)).length),
             ("all_users", .users ((db ++ [row]).filter (fun r => r.DeletedAt = none)))])) := by
  subst hout
  rcases Create_cases db (models.User.mk 0 name (mk e.unixNano) 0 0 none) e.storeNow
      e.createFault with ⟨u1, err, hC⟩ | ⟨row, hC, hf, h1, h2, h3, -⟩
  · rw [hC]
    exact ⟨_, rfl, _, rfl, Or.inl ⟨err, rfl, rfl, rfl⟩⟩
  · rw [hC]
    rcases Find_cases (db ++ [row]) e.findFault with ⟨err, hff, hF⟩ | ⟨hff, hF⟩
    · simp only [hF]
      exact ⟨_, rfl, _, rfl, Or.inr (Or.inl ⟨row, err, rfl, hf, hff, rfl, h1, h2, h3, rfl⟩)⟩
    · simp only [hF]
      exact ⟨_, rfl, _, rfl, Or.inr (Or.inr ⟨row, rfl, hf, hff, rfl, h1, h2, h3, rfl⟩)⟩

/-- The three ways a visit can go, with the store and the response each one leaves. -/
theorem handleVisitOf_cases (v : Variant) (db : gorm.DB) (e : VisitEnv) (h : e.randOk) :
    ∃ name res, Golang.generateRandomName e.r1 e.r2 = some name ∧
      handleVisitOf v db e = some res ∧
      ∃ newUser : models.User,
        newUser = { ID := 0, Name := name, Email := visitEmailOf v e.unixNano,
                    CreatedAt := 0, UpdatedAt := 0, DeletedAt := none } ∧
      ((∃ err, res.calls = [.create newUser (some err)] ∧ res.db = db ∧
          res.resp = gin.JSON 500 [("error", .str "Failed to create user")]) ∨
       (∃ row err, res.calls = [.create newUser none, .find (some err)] ∧
          e.createFault = none ∧ e.findFault = some err ∧
          res.db = db ++ [row] ∧ row.Email = newUser.Email ∧ row.Name = name ∧
          row.DeletedAt = none ∧
          res.resp = gin.JSON 500 [("error", .str "Failed to fetch users")]) ∨
       (∃ row, res.calls = [.create newUser none, .find none] ∧
          e.createFault = none ∧ e.findFault = none ∧
          res.db = db ++ [row] ∧ row.Email = newUser.Email ∧ row.Name = name ∧
          row.DeletedAt = none ∧
          res.resp = gin.JSON 200
            [("hostname", .str e.hostname),
             ("message", .str "User created on this visit!"),
             ("new_user", .user row),
             ("total_users", .int ((db ++ [row]).filter (fun r => r.DeletedAt = none)).length),
             ("all_users", .users ((db ++ [row]).filter (fun r => r.DeletedAt = none)))])) := by
  obtain ⟨name, hname⟩ := Option.isSome_iff_exists.mp
    (generateRandomName_some e.r1 h.1 e.r2 h.2)
  have hname2 : GolangPostgresMulti.generateRandomName e.r1 e.r2 = some name := hname
  cases v
  · obtain ⟨res, hres, hrest⟩ := visit_body_cases Golang.visitEmail db e name
      (Golang.handleVisit db e) (by simp only [Golang.handleVisit, hname])
    exact ⟨name, res, hname, hres, hrest⟩
  · obtain ⟨res, hres, hrest⟩ := visit_body_cases GolangPostgresMulti.visitEmail db e name
      (GolangPostgresMulti.handleVisit db e) (by simp only [GolangPostgresMulti.handleVisit, hname2])
    exact ⟨name, res, hname, hres, hrest⟩

/-- C1 (SQLite variant): `handleError` is determined by the path parameter `code`.  The three
strings "502", "503", "504" abort the request with that status and no body; every other string
gives status 200 with a JSON body whose only key is `usage`. -/
theorem handleError_determined_by_code (code : String) :
    (code = "502" → Golang.handleError code = gin.AbortWithStatus 502) ∧
    (code = "503" → Golang.handleError code = gin.AbortWithStatus 503) ∧
    (code = "504" → Golang.handleError code = gin.AbortWithStatus 504) ∧
    (∀ n, (gin.AbortWithStatus n).status = n ∧ (gin.AbortWithStatus n).body = none ∧
      (gin.AbortWithStatus n).aborted = true) ∧
    (code ≠ "502" → code ≠ "503" → code ≠ "504" →
      (Golang.handleError code).status = 200 ∧
      (Golang.handleError code).aborted = false ∧
      (Golang.handleError code).keys = ["usage"]) ∧
    (∀ c ∈ ["999", "", "500", "0502", "502 "],
      (Golang.handleError c).status = 200 ∧ (Golang.handleError c).keys = ["usage"]) := by
  refine ⟨?_, ?_, ?_, ?_, ?_, ?_⟩
  · rintro rfl; rfl
  · rintro rfl; rfl
  · rintro rfl; rfl
  · intro n; exact ⟨rfl, rfl, rfl⟩
  · intro h2 h3 h4
    simp [Golang.handleError, h2, h3, h4, gin.JSON, gin.Response.keys, http.StatusOK]
  · decide

/-- C2 (both variants): `healthCheck` answers 200 exactly when obtaining the SQL handle and the
ping both succeed, and 503 otherwise; no other status is produced. -/
theorem healthCheck_status_iff_probe (e : HealthEnv) :
    ((Golang.healthCheck e).status = 200 ↔ (e.dbErr = none ∧ e.pingErr = none)) ∧
    ((Golang.healthCheck e).status = 503 ↔ ¬ (e.dbErr = none ∧ e.pingErr = none)) ∧
    ((Golang.healthCheck e).status = 200 ∨ (Golang.healthCheck e).status = 503) ∧
    ((GolangPostgresMulti.healthCheck e).status = 200 ↔ (e.dbErr = none ∧ e.pingErr = none)) ∧
    ((GolangPostgresMulti.healthCheck e).status = 503 ↔
      ¬ (e.dbErr = none ∧ e.pingErr = none)) ∧
    ((GolangPostgresMulti.healthCheck e).status = 200 ∨
      (GolangPostgresMulti.healthCheck e).status = 503) ∧
    ((Golang.healthCheck e).keys =
      if e.dbErr = none ∧ e.pingErr = none then ["status", "service", "time"]
      else ["status", "error"]) ∧
    ((GolangPostgresMulti.healthCheck e).keys =
      if e.dbErr = none ∧ e.pingErr = none then ["status", "service", "hostname", "time"]
      else ["status", "error"]) := by
  obtain ⟨dbErr, pingErr, t, h⟩ := e
  cases dbErr <;> cases pingErr <;>
    simp [Golang.healthCheck, GolangPostgresMulti.healthCheck, gin.JSON, gin.Response.keys,
      http.StatusOK, http.StatusServiceUnavailable]

/-- C4 (both variants): when the insert and the read of a visit both succeed, the response is
200, its `total_users` is the number of non-deleted rows in the store after the insert, and is
the length of its `all_users` list, which contains the newly inserted row (the `new_user` of
the response). -/
theorem total_users_eq_live_count (v : Variant) (db : gorm.DB) (e : VisitEnv)
    (res : VisitResult) (hrand : e.randOk) (hres : handleVisitOf v db e = some res)
    (hok : res.callErrs = [none, none]) :
    res.resp.status = 200 ∧
    ∃ created users,
      res.resp.lookup "new_user" = some (.user created) ∧
      res.resp.lookup "total_users" = some (.int users.length) ∧
      res.resp.lookup "all_users" = some (.users users) ∧
      res.db = db ++ [created] ∧
      users = res.db.filter (fun r => r.DeletedAt = none) ∧
      users.length = res.db.liveCount ∧
      users.length = db.liveCount + 1 ∧
      created ∈ users ∧
      created.Email = visitEmailOf v e.unixNano := by
  obtain ⟨name, res1, -, hres1, newUser, hnew, hcases⟩ := handleVisitOf_cases v db e hrand
  obtain rfl : res1 = res := Option.some.inj (hres1.symm.trans hres)
  rcases hcases with ⟨err, hc, -, -⟩ | ⟨row, err, hc, -⟩ |
      ⟨row, hc, hcf, hff, hdb, h1, h2, h3, hr⟩
  · simp [VisitResult.callErrs, hc] at hok
  · simp [VisitResult.callErrs, hc] at hok
  · refine ⟨by simp [hr, gin.JSON], row,
      (db ++ [row]).filter (fun r => r.DeletedAt = none), ?_, ?_, ?_, hdb, ?_, ?_, ?_, ?_, ?_⟩
    · simp only [hr, gin.JSON, gin.Response.lookup]
      rfl
    · simp only [hr, gin.JSON, gin.Response.lookup]
      rfl
    · simp only [hr, gin.JSON, gin.Response.lookup]
      rfl
    · rw [hdb]
    · rw [hdb]; rfl
    · simp [gorm.DB.liveCount, List.filter_append, h3]
    · simp [List.filter_append, h3]
    · rw [h1, hnew]

/-- C4 at a concrete visit on a store holding one live and one soft-deleted row. -/
theorem total_users_eq_live_count_witness :
    ∃ res, handleVisitOf .postgres sampleStore sampleVisit = some res ∧
      res.callErrs = [none, none] ∧ res.resp.status = 200 ∧
      res.resp.lookup "total_users" = some (.int 2) ∧ res.db.liveCount = 2 ∧
      res.db.length = 3 :=
  ⟨_, rfl, by decide,
    (total_users_eq_live_count .postgres sampleStore sampleVisit _ (by decide) rfl
      (by decide)).1, by decide, by decide, by decide⟩

/-! ### One visit, then a run of visits -/

/-- What one visit does to the store and what its `total_users` is when it has one. -/
theorem visit_step (v : Variant) (db : gorm.DB) (e : VisitEnv) (h : e.randOk) :
    ∃ res, handleVisitOf v db e = some res ∧
      (res.db = db ∨ ∃ row, res.db = db ++ [row] ∧ row.DeletedAt = none) ∧
      (res.db.liveCount = db.liveCount ∨ res.db.liveCount = db.liveCount + 1) ∧
      ((∃ u, res.calls.head? = some (.create u none)) →
        res.db.liveCount = db.liveCount + 1) ∧
      ((∃ u err, res.calls.head? = some (.create u (some err))) → res.db = db) ∧
      (totalUsers [res] = [] ∨ totalUsers [res] = [(res.db.liveCount : Int)]) ∧
      (res.resp.status = 200 → totalUsers [res] = [(res.db.liveCount : Int)]) := by
  obtain ⟨name, res, -, hres, newUser, hnew, hcases⟩ := handleVisitOf_cases v db e h
  refine ⟨res, hres, ?_⟩
  rcases hcases with ⟨err, hc, hdb, hr⟩ | ⟨row, err, hc, hcf, hff, hdb, h1, h2, h3, hr⟩ |
      ⟨row, hc, hcf, hff, hdb, h1, h2, h3, hr⟩
  · refine ⟨Or.inl hdb, Or.inl (by rw [hdb]), ?_, fun _ => hdb, Or.inl ?_, ?_⟩
    · simp [hc]
    · simp only [totalUsers, List.filterMap, hr, gin.JSON, gin.Response.lookup]
      rfl
    · simp [hr, gin.JSON]
  · have hlive : res.db.liveCount = db.liveCount + 1 := by
      simp [hdb, gorm.DB.liveCount, List.filter_append, h3]
    refine ⟨Or.inr ⟨row, hdb, h3⟩, Or.inr hlive, fun _ => hlive, ?_, Or.inl ?_, ?_⟩
    · simp [hc]
    · simp only [totalUsers, List.filterMap, hr, gin.JSON, gin.Response.lookup]
      rfl
    · simp [hr, gin.JSON]
  · have hlive : res.db.liveCount = db.liveCount + 1 := by
      simp [hdb, gorm.DB.liveCount, List.filter_append, h3]
    have htot : totalUsers [res] = [(res.db.liveCount : Int)] := by
      simp only [totalUsers, List.filterMap, hr, gin.JSON, gin.Response.lookup, hdb,
        gorm.DB.liveCount]
      rfl
    refine ⟨Or.inr ⟨row, hdb, h3⟩, Or.inr hlive, fun _ => hlive, ?_, Or.inr htot, fun _ => htot⟩
    simp [hc]

theorem totalUsers_cons (r : VisitResult) (rs : List VisitResult) :
    totalUsers (r :: rs) = totalUsers [r] ++ totalUsers rs := by
  simp only [totalUsers, List.filterMap_cons, List.filterMap_nil]
  split <;> simp

/-- A run of visits returns one result per visit; the live row count never drops along it and
every `total_users` reported is at least the count the run started from. -/
theorem run_invariant (v : Variant) (es : List VisitEnv) :
    ∀ db : gorm.DB, (∀ e ∈ es, e.randOk) →
      ∃ rs, runVisits (handleVisitOf v) db es = some rs ∧ rs.length = es.length ∧
        (∀ t ∈ totalUsers rs, (db.liveCount : Int) ≤ t) ∧
        (totalUsers rs).Pairwise (· ≤ ·) ∧
        (db.liveCount :: rs.map (fun r => r.db.liveCount)).Pairwise (· ≤ ·) := by
  induction es with
  | nil =>
    intro db _
    exact ⟨[], rfl, rfl, by simp [totalUsers], by simp [totalUsers], by simp⟩
  | cons e es ih =>
    intro db hall
    obtain ⟨res, hres, -, hcount, -, -, htot, -⟩ :=
      visit_step v db e (hall e (List.mem_cons_self _ _))
    obtain ⟨rs, hrs, hlen, hge, hpw, hchain⟩ :=
      ih res.db (fun x hx => hall x (List.mem_cons_of_mem _ hx))
    have hle : db.liveCount ≤ res.db.liveCount := by omega
    refine ⟨res :: rs, ?_, by simp [hlen], ?_, ?_, ?_⟩
    · simp only [runVisits, hres, hrs]
    · intro t ht
      rw [totalUsers_cons, List.mem_append] at ht
      rcases ht with ht | ht
      · rcases htot with h0 | h1
        · simp [h0] at ht
        · simp only [h1, List.mem_singleton] at ht
          subst ht
          exact_mod_cast hle
      · have := hge t ht
        have hle2 : (db.liveCount : Int) ≤ res.db.liveCount := by exact_mod_cast hle
        omega
    · rw [totalUsers_cons]
      rcases htot with h0 | h1
      · simpa [h0] using hpw
      · rw [h1]
        simp only [List.singleton_append, List.pairwise_cons]
        exact ⟨hge, hpw⟩
    · simp only [List.map_cons, List.pairwise_cons] at hchain ⊢
      refine ⟨?_, hchain⟩
      intro a ha
      rcases List.mem_cons.mp ha with rfl | ha
      · exact hle
      · exact le_trans hle (hchain.1 a ha)

/-- C5 (both variants): along any run of successive visits on a store nothing else modifies,
the `total_users` values of the successful responses never decrease.  A visit leaves the rows
already present untouched: the store afterwards is the store before, or the store before with
one live row appended, so the live row count is unchanged or one larger, and exactly one
larger when the insert succeeds, also when the read that follows fails. -/
theorem total_users_monotone (v : Variant) (db : gorm.DB) (es : List VisitEnv)
    (h : ∀ e ∈ es, e.randOk) :
    (∃ rs, runVisits (handleVisitOf v) db es = some rs ∧ rs.length = es.length ∧
      (totalUsers rs).Pairwise (· ≤ ·) ∧
      (db.liveCount :: rs.map (fun r => r.db.liveCount)).Pairwise (· ≤ ·)) ∧
    (∀ (db0 : gorm.DB) (e : VisitEnv), e.randOk →
      ∃ res, handleVisitOf v db0 e = some res ∧
        (res.db = db0 ∨ ∃ row, res.db = db0 ++ [row] ∧ row.DeletedAt = none) ∧
        (res.db.liveCount = db0.liveCount ∨ res.db.liveCount = db0.liveCount + 1) ∧
        ((∃ u, res.calls.head? = some (.create u none)) →
          res.db.liveCount = db0.liveCount + 1) ∧
        ((∃ u err, res.calls.head? = some (.create u (some err))) → res.db = db0) ∧
        (res.resp.status = 200 → totalUsers [res] = [(res.db.liveCount : Int)])) := by
  constructor
  · obtain ⟨rs, hrs, hlen, -, hpw, hchain⟩ := run_invariant v es db h
    exact ⟨rs, hrs, hlen, hpw, hchain⟩
  · intro db0 e he
    obtain ⟨res, hres, h1, h2, h3, h4, -, h6⟩ := visit_step v db0 e he
    exact ⟨res, hres, h1, h2, h3, h4, h6⟩

/-- C5 on a run with a failed read and a failed insert in the middle: the two successful
responses report 2 and then 4 users. -/
theorem total_users_monotone_witness :
    (∀ e ∈ sampleRun, e.randOk) ∧
    (∃ rs, runVisits (handleVisitOf .sqlite) sampleStore sampleRun = some rs ∧
      rs.length = sampleRun.length ∧ (totalUsers rs).Pairwise (· ≤ ·) ∧
      (sampleStore.liveCount :: rs.map (fun r => r.db.liveCount)).Pairwise (· ≤ ·)) ∧
    (runVisits (handleVisitOf .sqlite) sampleStore sampleRun).map totalUsers = some [2, 4] ∧
    (runVisits (handleVisitOf .sqlite) sampleStore sampleRun).map
      (fun rs => rs.map (fun r => r.db.liveCount)) = some [2, 3, 3, 4] :=
  ⟨by decide, (total_users_monotone .sqlite sampleStore sampleRun (by decide)).1,
    by decide, by decide⟩

/-! ### The email of a visit -/

theorem visitEmailOf_injective (v : Variant) {t1 t2 : Int}
    (h : visitEmailOf v t1 = visitEmailOf v t2) : t1 = t2 := by
  apply formatInt_injective
  apply String.ext
  have hd := congrArg String.data h
  cases v <;>
    simp only [visitEmailOf, Golang.visitEmail, GolangPostgresMulti.visitEmail,
      String.data_append] at hd <;>
    exact List.append_cancel_left (List.append_cancel_right hd)

/-- Every visit hands exactly one email to the store: the one built from its clock value. -/
theorem visit_emails (v : Variant) (db : gorm.DB) (e : VisitEnv) (h : e.randOk) :
    ∃ res, handleVisitOf v db e = some res ∧ res.emails = [visitEmailOf v e.unixNano] := by
  obtain ⟨name, res, -, hres, newUser, hnew, hcases⟩ := handleVisitOf_cases v db e h
  refine ⟨res, hres, ?_⟩
  rcases hcases with ⟨err, hc, -⟩ | ⟨row, err, hc, -⟩ | ⟨row, hc, -⟩ <;>
    simp [VisitResult.emails, hc, hnew]

theorem run_emails (v : Variant) (es : List VisitEnv) :
    ∀ db : gorm.DB, (∀ e ∈ es, e.randOk) →
      ∃ rs, runVisits (handleVisitOf v) db es = some rs ∧
        generatedEmails rs = es.map (fun e => visitEmailOf v e.unixNano) := by
  induction es with
  | nil => intro db _; exact ⟨[], rfl, rfl⟩
  | cons e es ih =>
    intro db hall
    obtain ⟨res, hres, hem⟩ := visit_emails v db e (hall e (List.mem_cons_self _ _))
    obtain ⟨rs, hrs, hrest⟩ := ih res.db (fun x hx => hall x (List.mem_cons_of_mem _ hx))
    refine ⟨res :: rs, by simp only [runVisits, hres, hrs], ?_⟩
    simp only [generatedEmails, List.map_cons, List.flatten_cons] at hrest ⊢
    rw [hem, hrest]
    rfl

/-- C3 as stated fails: two sequential visits that read the same clock value generate the
same email, whatever else differs between them. -/
theorem generated_emails_collide_on_equal_clock :
    (∀ e ∈ sameInstantVisits, e.randOk) ∧
    ∃ rs, runVisits Golang.handleVisit [] sameInstantVisits = some rs ∧
      generatedEmails rs = ["user-xxx1700000000000000000@example.com",
                            "user-xxx1700000000000000000@example.com"] ∧
      ¬ (generatedEmails rs).Nodup :=
  ⟨by decide, _, rfl, by decide, by decide⟩

/-- C3, amended (both variants): the emails generated by any run of sequential visits are the
emails built from the clock values the visits read, in order; they are pairwise distinct
exactly when those clock values are pairwise distinct. -/
theorem generated_emails_distinct_iff_clocks_distinct (v : Variant) (db : gorm.DB)
    (es : List VisitEnv) (h : ∀ e ∈ es, e.randOk) :
    ∃ rs, runVisits (handleVisitOf v) db es = some rs ∧
      generatedEmails rs = es.map (fun e => visitEmailOf v e.unixNano) ∧
      ((generatedEmails rs).Nodup ↔ (es.map (fun e => e.unixNano)).Nodup) := by
  obtain ⟨rs, hrs, hem⟩ := run_emails v es db h
  refine ⟨rs, hrs, hem, ?_⟩
  rw [hem]
  have hcomp : es.map (fun e => visitEmailOf v e.unixNano) =
      (es.map (fun e => e.unixNano)).map (visitEmailOf v) := by
    simp [List.map_map, Function.comp_def]
  rw [hcomp]
  exact List.nodup_map_iff (fun a b hab => visitEmailOf_injective v hab)

/-- C3, amended, on a run of four visits reading four different clock values. -/
theorem generated_emails_distinct_witness :
    (∀ e ∈ sampleRun, e.randOk) ∧
    ∃ rs, runVisits (handleVisitOf .postgres) sampleStore sampleRun = some rs ∧
      generatedEmails rs = sampleRun.map (fun e => visitEmailOf .postgres e.unixNano) ∧
      ((generatedEmails rs).Nodup ↔ (sampleRun.map (fun e => e.unixNano)).Nodup) :=
  ⟨by decide,
    generated_emails_distinct_iff_clocks_distinct .postgres sampleStore sampleRun (by decide)⟩

/-- C10: the email construction of each variant is injective in the timestamp, for all
integers and so for all 64-bit signed ones, negative values included; hence two visits hand
the same email to the store exactly when they read the same clock value. -/
theorem visitEmail_eq_iff (t1 t2 : Int) :
    (Golang.visitEmail t1 = Golang.visitEmail t2 ↔ t1 = t2) ∧
    (GolangPostgresMulti.visitEmail t1 = GolangPostgresMulti.visitEmail t2 ↔ t1 = t2) ∧
    (Golang.visitEmail t1 = "user-xxx" ++ fmt.formatInt t1 ++ "@example.com") ∧
    (GolangPostgresMulti.visitEmail t1 = "user-" ++ fmt.formatInt t1 ++ "@example.com") ∧
    (∀ (v : Variant) (db1 db2 : gorm.DB) (e1 e2 : VisitEnv),
      e1.randOk → e2.randOk → e1.unixNano = t1 → e2.unixNano = t2 →
      ∃ res1 res2, handleVisitOf v db1 e1 = some res1 ∧ handleVisitOf v db2 e2 = some res2 ∧
        (res1.emails = res2.emails ↔ t1 = t2)) := by
  refine ⟨⟨fun h => visitEmailOf_injective .sqlite h, fun h => by rw [h]⟩,
    ⟨fun h => visitEmailOf_injective .postgres h, fun h => by rw [h]⟩, rfl, rfl, ?_⟩
  intro v db1 db2 e1 e2 h1 h2 ht1 ht2
  obtain ⟨res1, hr1, hm1⟩ := visit_emails v db1 e1 h1
  obtain ⟨res2, hr2, hm2⟩ := visit_emails v db2 e2 h2
  refine ⟨res1, res2, hr1, hr2, ?_⟩
  rw [hm1, hm2, ht1, ht2]
  constructor
  · intro h
    exact visitEmailOf_injective v (List.cons.inj h).1
  · intro h; rw [h]

/-! ### Names -/

theorem generateRandomName_form :
    ∀ r1 < 10, ∀ r2 < 10,
      ∃ first ∈ ["Alice", "Bob", "Charlie", "Diana", "Eve", "Frank", "Grace", "Henry", "Ivy",
                 "Jack"],
      ∃ last ∈ ["Smith", "Johnson", "Williams", "Brown", "Jones", "Garcia", "Miller", "Davis",
                "Rodriguez", "Martinez"],
        Golang.generateRandomName r1 r2 = some (first ++ " " ++ last) ∧
        first ++ " " ++ last ≠ "" := by
  decide

theorem names_without_space :
    (∀ first ∈ ["Alice", "Bob", "Charlie", "Diana", "Eve", "Frank", "Grace", "Henry", "Ivy",
                "Jack"], ' ' ∉ first.data) ∧
    (∀ last ∈ ["Smith", "Johnson", "Williams", "Brown", "Jones", "Garcia", "Miller", "Davis",
               "Rodriguez", "Martinez"], ' ' ∉ last.data) := by
  decide

set_option maxRecDepth 1000000 in
set_option maxHeartbeats 4000000 in
theorem generateRandomName_pairs_distinct :
    ∀ r1 r2 s1 s2 : Fin 10,
      Golang.generateRandomName s1 s2 = Golang.generateRandomName r1 r2 → s1 = r1 ∧ s2 = r2 := by
  decide

/-- C9 (both variants): for every pair of values `rand.Intn(10)` can return,
`generateRandomName` indexes both lists in bounds and returns a non-empty string
"first last", the first name one of the 10 fixed first names, the last name one of the 10
fixed last names, neither holding a space, joined by one space; different index pairs give
different names; and the function of the two variants is the same. -/
theorem generateRandomName_in_bounds_distinct (r1 r2 : Nat) (h1 : r1 < 10) (h2 : r2 < 10) :
    (∃ first ∈ ["Alice", "Bob", "Charlie", "Diana", "Eve", "Frank", "Grace", "Henry", "Ivy",
                "Jack"],
     ∃ last ∈ ["Smith", "Johnson", "Williams", "Brown", "Jones", "Garcia", "Miller", "Davis",
               "Rodriguez", "Martinez"],
       Golang.generateRandomName r1 r2 = some (first ++ " " ++ last) ∧
       first ++ " " ++ last ≠ "") ∧
    ((∀ first ∈ ["Alice", "Bob", "Charlie", "Diana", "Eve", "Frank", "Grace", "Henry", "Ivy",
                 "Jack"], ' ' ∉ first.data) ∧
     (∀ last ∈ ["Smith", "Johnson", "Williams", "Brown", "Jones", "Garcia", "Miller", "Davis",
                "Rodriguez", "Martinez"], ' ' ∉ last.data)) ∧
    (∀ s1 s2, s1 < 10 → s2 < 10 →
      Golang.generateRandomName s1 s2 = Golang.generateRandomName r1 r2 → s1 = r1 ∧ s2 = r2) ∧
    GolangPostgresMulti.generateRandomName = Golang.generateRandomName := by
  refine ⟨generateRandomName_form r1 h1 r2 h2, names_without_space, ?_, rfl⟩
  intro s1 s2 hs1 hs2 heq
  have := generateRandomName_pairs_distinct ⟨r1, h1⟩ ⟨r2, h2⟩ ⟨s1, hs1⟩ ⟨s2, hs2⟩ heq
  simpa [Fin.ext_iff] using this

/-- C9 at the index pair (3, 7): the name is "Diana Davis". -/
theorem generateRandomName_in_bounds_distinct_witness :
    Golang.generateRandomName 3 7 = some "Diana Davis" ∧
    (∀ s1 s2, s1 < 10 → s2 < 10 →
      Golang.generateRandomName s1 s2 = Golang.generateRandomName 3 7 → s1 = 3 ∧ s2 = 7) :=
  ⟨by decide, (generateRandomName_in_bounds_distinct 3 7 (by decide) (by decide)).2.2.1⟩

/-! ### Connector and lifecycle -/

/-- C7 (PostgreSQL variant): `initDB` returns an error, and then no handle, exactly when
`DATABASE_URL` is empty or the open, the SQL handle or the ping fails.  With an empty
`DATABASE_URL` it stops after reading the variable, before any call that reaches for the
store.  The pool limits (10 idle, 100 open, one hour of lifetime) are set exactly on the
success path, after the ping. -/
theorem initDB_error_iff (e : InitEnv) :
    ((GolangPostgresMulti.initDB e).err ≠ none ↔
      (e.databaseURL = "" ∨ e.openErr ≠ none ∨ e.dbErr ≠ none ∨ e.pingErr ≠ none)) ∧
    ((GolangPostgresMulti.initDB e).err ≠ none ↔ (GolangPostgresMulti.initDB e).db = none) ∧
    (e.databaseURL = "" →
      (GolangPostgresMulti.initDB e).calls = [.getenv "DATABASE_URL"] ∧
      (GolangPostgresMulti.initDB e).calls.all (fun c => !c.connects) = true) ∧
    ((GolangPostgresMulti.initDB e).err = none →
      (GolangPostgresMulti.initDB e).calls =
        [.getenv "DATABASE_URL", .gormOpen e.databaseURL, .sqlDB, .ping,
         .setMaxIdleConns 10, .setMaxOpenConns 100, .setConnMaxLifetime 3600000000000,
         .println "Database connected successfully"] ∧
      (GolangPostgresMulti.initDB e).db =
        some { dsn := e.databaseURL, maxIdleConns := 10, maxOpenConns := 100,
               connMaxLifetime := 3600000000000 }) ∧
    ((GolangPostgresMulti.initDB e).calls.any (fun c => c.setsPool) = true ↔
      (GolangPostgresMulti.initDB e).err = none) := by
  obtain ⟨url, mk, op, db, pg⟩ := e
  by_cases hurl : url = ""
  · simp [GolangPostgresMulti.initDB, hurl, InitCall.connects, InitCall.setsPool]
  · cases op <;> cases db <;> cases pg <;>
      simp [GolangPostgresMulti.initDB, hurl, InitCall.connects, InitCall.setsPool, time.Hour,
        time.Second]

/-- C7 evaluated: every call going through, a failing ping, and an unset `DATABASE_URL`. -/
theorem initDB_error_iff_witness :
    ((GolangPostgresMulti.initDB sampleInit).err = none ∧
      (GolangPostgresMulti.initDB sampleInit).calls.any (fun c => c.setsPool) = true) ∧
    GolangPostgresMulti.initDB { sampleInit with pingErr := some "refused" } =
      { db := none, err := some "failed to ping database: refused",
        calls := [.getenv "DATABASE_URL", .gormOpen "postgres://app@db/app", .sqlDB, .ping] } ∧
    GolangPostgresMulti.initDB { sampleInit with databaseURL := "" } =
      { db := none, err := some "DATABASE_URL environment variable not set",
        calls := [.getenv "DATABASE_URL"] } :=
  ⟨⟨by decide, ((initDB_error_iff sampleInit).2.2.2.2).mpr (by decide)⟩, by decide, by decide⟩

/-- C10 evaluated at the smallest 64-bit value, at zero and at a pair of opposite values. -/
theorem visitEmail_eq_iff_witness :
    Golang.visitEmail (-9223372036854775808) = "user-xxx-9223372036854775808@example.com" ∧
    GolangPostgresMulti.visitEmail 0 = "user-0@example.com" ∧
    Golang.visitEmail (-1) ≠ Golang.visitEmail 1 :=
  ⟨by decide, by decide, fun h => absurd ((visitEmail_eq_iff (-1) 1).1.mp h) (by decide)⟩

/-- The router is built exactly for the modes `gin.SetMode` accepts; otherwise `setupRouter`
panics. -/
theorem setupRouterOf_cases (v : Variant) (mode : String) :
    (mode ∈ ["", "debug", "release", "test"] ∧ ∃ r, setupRouterOf v mode = .ok r) ∨
    (mode ∉ ["", "debug", "release", "test"] ∧ setupRouterOf v mode =
      .error ("gin mode unknown: " ++ mode ++ " (available mode: debug release test)")) := by
  by_cases h0 : mode = ""
  · subst h0
    exact Or.inl ⟨by decide, by cases v <;> exact ⟨_, rfl⟩⟩
  · by_cases hm : mode = "debug" ∨ mode = "release" ∨ mode = "test"
    · refine Or.inl ⟨by simp [hm], ?_⟩
      cases v <;>
        simp [setupRouterOf, Golang.setupRouter, GolangPostgresMulti.setupRouter, gin.SetMode,
          h0, hm]
    · refine Or.inr ⟨by simpa [h0] using hm, ?_⟩
      cases v <;>
        simp [setupRouterOf, Golang.setupRouter, GolangPostgresMulti.setupRouter, gin.SetMode,
          h0, hm]

/-- C8 (both variants): the way `main` ends follows its steps in order.  When `initDB` or
`AutoMigrate` fails the exit code is 1, the last step is the fatal log, and no step of the
serving state (router set-up, listening) was taken.  When start-up succeeds and `Shutdown`,
called with the 5-second budget after the signal, returns an error, the exit code is 1 after
the fatal log.  The exit code is 0 exactly when every step succeeded, `Shutdown` included, and
then `Shutdown` was called.  Every other end is abnormal: exit code 1 after a fatal log, or
exit code 2 when `gin.SetMode` panics on a `GIN_MODE` it does not know, which happens after
`initDB` and `AutoMigrate` succeeded and before any listening.  Both signals are registered and
lead to the same exit code. -/
theorem main_exit_outcome (v : Variant) (e : MainEnv) :
    (((initDBOf v e.init).err ≠ none ∨ e.migrateErr ≠ none) →
      (mainOf v e).exitCode = 1 ∧
      (mainOf v e).events.all (fun ev => !ev.startsServing) = true ∧
      (∃ msg, (mainOf v e).events.getLast? = some (.fatalf msg))) ∧
    ((initDBOf v e.init).err = none → e.migrateErr = none →
      e.ginMode ∈ ["", "debug", "release", "test"] → e.listenErr = none →
      MainEvent.notify [.SIGINT, .SIGTERM] ∈ (mainOf v e).events ∧
      MainEvent.received e.signal ∈ (mainOf v e).events ∧
      (mainOf v e).events.dropLast.getLast? = some (.shutdown 5000000000) ∧
      (e.shutdownErr ≠ none →
        (mainOf v e).exitCode = 1 ∧
        ∃ msg, (mainOf v e).events.getLast? = some (.fatalf msg)) ∧
      (e.shutdownErr = none → (mainOf v e).exitCode = 0)) ∧
    ((initDBOf v e.init).err = none → e.migrateErr = none →
      e.ginMode ∈ ["", "debug", "release", "test"] → e.listenErr ≠ none →
      (mainOf v e).exitCode = 1 ∧
      (∃ msg, (mainOf v e).events.getLast? = some (.fatalf msg)) ∧
      (∀ n, MainEvent.shutdown n ∉ (mainOf v e).events)) ∧
    ((initDBOf v e.init).err = none → e.migrateErr = none →
      e.ginMode ∉ ["", "debug", "release", "test"] →
      mainOf v e =
        { exitCode := 2,
          events := [.initDB (initDBOf v e.init).calls, .autoMigrate,
                     .panics ("gin mode unknown: " ++ e.ginMode ++
                       " (available mode: debug release test)")] }) ∧
    ((mainOf v e).exitCode = 0 ↔
      ((initDBOf v e.init).err = none ∧ e.migrateErr = none ∧
        e.ginMode ∈ ["", "debug", "release", "test"] ∧ e.listenErr = none ∧
        e.shutdownErr = none)) ∧
    ((mainOf v e).exitCode = 0 → MainEvent.shutdown 5000000000 ∈ (mainOf v e).events) ∧
    ((mainOf v e).exitCode = 2 ↔
      ((initDBOf v e.init).err = none ∧ e.migrateErr = none ∧
        e.ginMode ∉ ["", "debug", "release", "test"])) ∧
    ((mainOf v e).exitCode = 0 ∨ (mainOf v e).exitCode = 1 ∨ (mainOf v e).exitCode = 2) ∧
    ((mainOf v { e with signal := .SIGINT }).exitCode =
      (mainOf v { e with signal := .SIGTERM }).exitCode) := by
  obtain ⟨init, mode, mig, lis, sig, shut⟩ := e
  rcases setupRouterOf_cases v mode with ⟨hm, r, hr⟩ | ⟨hm, hr⟩
  all_goals
    cases v
    all_goals
      simp only [setupRouterOf] at hr
      simp only [mainOf, initDBOf, Golang.main, GolangPostgresMulti.main, hr]
      cases hinit : (Golang.initDB init).err <;>
        cases hinit2 : (GolangPostgresMulti.initDB init).err <;>
        cases mig <;> cases lis <;> cases shut <;>
        simp [MainEvent.startsServing, time.Second, hm]

/-- C8 evaluated: a forced shutdown exits with 1, a clean one with 0, a failed migration with
1 after two steps and the fatal log, an unknown `GIN_MODE` with 2 before any listening. -/
theorem main_exit_outcome_witness :
    (mainOf .sqlite sampleMain).exitCode = 1 ∧
    (mainOf .postgres { sampleMain with shutdownErr := none }).exitCode = 0 ∧
    mainOf .postgres { sampleMain with migrateErr := some "permission denied" } =
      { exitCode := 1,
        events := [.initDB (GolangPostgresMulti.initDB sampleInit).calls, .autoMigrate,
                   .fatalf "Failed to migrate database: permission denied"] } ∧
    mainOf .sqlite { sampleMain with ginMode := "bogus", shutdownErr := none } =
      { exitCode := 2,
        events := [.initDB (Golang.initDB sampleInit).calls, .autoMigrate,
                   .panics "gin mode unknown: bogus (available mode: debug release test)"] } ∧
    (mainOf .sqlite { sampleMain with ginMode := "", shutdownErr := none }).events =
      [.initDB [.mkdirAll "data" 493, .gormOpen "data/app.db",
                .println "Database connected successfully"],
       .autoMigrate,
       .setupRouter { mode := none,
                      routes := [("/health", .healthCheck), ("/", .handleVisit),
                                 ("/error/:code", .handleError)] },
       .println "Starting server on :3000", .listenAndServe ":3000",
       .notify [.SIGINT, .SIGTERM], .received .SIGTERM, .println "Shutting down server...",
       .shutdown 5000000000, .println "Server exited"] :=
  ⟨((main_exit_outcome .sqlite sampleMain).2.1 (by decide) (by decide) (by decide)
      (by decide)).2.2.2.1 (by decide) |>.1,
    by decide, by decide, by decide, by decide⟩

/-! ### The outcome of the store calls -/

theorem le_foldl_max (l : List Nat) : ∀ init : Nat, init ≤ l.foldl max init := by
  induction l with
  | nil => intro init; exact le_refl _
  | cons a l ih => intro init; exact le_trans (le_max_left init a) (ih (max init a))

theorem mem_le_foldl_max (l : List Nat) : ∀ (init x : Nat), x ∈ l → x ≤ l.foldl max init := by
  induction l with
  | nil => intro init x hx; simp at hx
  | cons a l ih =>
    intro init x hx
    rcases List.mem_cons.mp hx with rfl | hx
    · exact le_trans (le_max_right init x) (le_foldl_max l (max init x))
    · exact ih (max init a) x hx

/-- The generated key is larger than every key in the store. -/
theorem freshID_gt (db : gorm.DB) : ∀ r ∈ db, r.ID < db.freshID := by
  intro r hr
  have : r.ID ≤ (db.map (·.ID)).foldl max 0 :=
    mem_le_foldl_max _ 0 r.ID (List.mem_map.mpr ⟨r, hr, rfl⟩)
  unfold gorm.DB.freshID
  omega

/-- An insert of a row without a key goes through exactly when the round trip does and no row
holds its email. -/
theorem Create_ok_iff (db : gorm.DB) (u : models.User) (now : Int) (fault : error)
    (hid : u.ID = 0) :
    (∃ db1 created, db.Create u now fault = (db1, created, none)) ↔
      (fault = none ∧ ∀ r ∈ db, r.Email ≠ u.Email) := by
  have hstampID : (db.stamp u now).ID = db.freshID := by simp [gorm.DB.stamp, hid]
  have hstampEmail : (db.stamp u now).Email = u.Email := rfl
  cases fault with
  | some msg =>
    simp only [gorm.DB.Create]
    constructor
    · rintro ⟨db1, created, hC⟩
      simp at hC
    · rintro ⟨hf, -⟩
      simp at hf
  | none =>
    by_cases hdup : (db.any fun r => r.ID = (db.stamp u now).ID ||
        r.Email = (db.stamp u now).Email) = true
    · have hC : db.Create u now none = (db, db.stamp u now, some "UNIQUE constraint failed") := by
        simp only [gorm.DB.Create, hdup, if_true]
      constructor
      · rintro ⟨db1, created, hC1⟩
        rw [hC] at hC1
        simp at hC1
      · rintro ⟨-, hno⟩
        exfalso
        simp only [List.any_eq_true, Bool.or_eq_true, decide_eq_true_eq] at hdup
        obtain ⟨r, hr, hor⟩ := hdup
        rcases hor with hID | hEm
        · have := freshID_gt db r hr
          rw [hstampID] at hID
          omega
        · exact hno r hr (hEm.trans hstampEmail)
    · have hC : db.Create u now none = (db ++ [db.stamp u now], db.stamp u now, none) := by
        simp only [gorm.DB.Create, hdup]
        rfl
      constructor
      · rintro -
        refine ⟨rfl, ?_⟩
        intro r hr hEm
        apply hdup
        simp only [List.any_eq_true, Bool.or_eq_true, decide_eq_true_eq]
        exact ⟨r, hr, Or.inr (hEm.trans hstampEmail.symm)⟩
      · rintro -
        exact ⟨_, _, hC⟩

/-- What the store and the returned struct look like after `Create`, by its error. -/
theorem Create_shape (db : gorm.DB) (u : models.User) (now : Int) (fault : error)
    (db1 : gorm.DB) (u1 : models.User) (err : error)
    (hC : db.Create u now fault = (db1, u1, err)) :
    (err ≠ none → db1 = db) ∧
    (err = none → db1 = db ++ [u1] ∧ u1.Email = u.Email ∧ u1.Name = u.Name ∧
      u1.DeletedAt = u.DeletedAt) := by
  rcases Create_cases db u now fault with ⟨u2, err2, h2⟩ | ⟨row, h2, -, h3, h4, h5, -⟩
  · rw [h2] at hC
    simp only [Prod.mk.injEq] at hC
    obtain ⟨rfl, rfl, rfl⟩ := hC
    exact ⟨fun _ => rfl, fun h => by simp at h⟩
  · rw [h2] at hC
    simp only [Prod.mk.injEq] at hC
    obtain ⟨rfl, rfl, rfl⟩ := hC
    exact ⟨fun h => absurd rfl h, fun _ => ⟨rfl, h3, h4, h5⟩⟩

/-- The error of `Find` is the error of its round trip; without one the result is the list
of live rows. -/
theorem Find_shape (db : gorm.DB) (fault : error) :
    (db.Find fault).2 = fault ∧
    (fault = none → (db.Find fault).1 = db.filter (fun r => r.DeletedAt = none)) := by
  cases fault with
  | some msg => exact ⟨rfl, fun h => by simp at h⟩
  | none => exact ⟨rfl, fun _ => rfl⟩

/-- The result of a visit, computed from what the two store calls return. -/
theorem handleVisitOf_eval (v : Variant) (db : gorm.DB) (e : VisitEnv) (name : String)
    (hname : Golang.generateRandomName e.r1 e.r2 = some name) :
    (∀ db1 u1 err,
      db.Create (models.User.mk 0 name (visitEmailOf v e.unixNano) 0 0 none) e.storeNow
        e.createFault = (db1, u1, some err) →
      handleVisitOf v db e =
        some { resp := gin.JSON 500 [("error", .str "Failed to create user")], db := db1,
               calls := [.create (models.User.mk 0 name (visitEmailOf v e.unixNano) 0 0 none)
                           (some err)] }) ∧
    (∀ db1 created users err,
      db.Create (models.User.mk 0 name (visitEmailOf v e.unixNano) 0 0 none) e.storeNow
        e.createFault = (db1, created, none) →
      db1.Find e.findFault = (users, some err) →
      handleVisitOf v db e =
        some { resp := gin.JSON 500 [("error", .str "Failed to fetch users")], db := db1,
               calls := [.create (models.User.mk 0 name (visitEmailOf v e.unixNano) 0 0 none)
                           none, .find (some err)] }) ∧
    (∀ db1 created users,
      db.Create (models.User.mk 0 name (visitEmailOf v e.unixNano) 0 0 none) e.storeNow
        e.createFault = (db1, created, none) →
      db1.Find e.findFault = (users, none) →
      handleVisitOf v db e =
        some { resp := gin.JSON 200
                 [("hostname", .str e.hostname),
                  ("message", .str "User created on this visit!"),
                  ("new_user", .user created),
                  ("total_users", .int users.length),
                  ("all_users", .users users)],
               db := db1,
               calls := [.create (models.User.mk 0 name (visitEmailOf v e.unixNano) 0 0 none)
                           none, .find none] }) := by
  have hname2 : GolangPostgresMulti.generateRandomName e.r1 e.r2 = some name := hname
  refine ⟨?_, ?_, ?_⟩
  · intro db1 u1 err hC
    cases v <;>
      simp only [handleVisitOf, visitEmailOf, Golang.handleVisit,
        GolangPostgresMulti.handleVisit, hname, hname2] at hC ⊢ <;>
      rw [hC] <;> rfl
  · intro db1 created users err hC hF
    cases v <;>
      simp only [handleVisitOf, visitEmailOf, Golang.handleVisit,
        GolangPostgresMulti.handleVisit, hname, hname2] at hC ⊢ <;>
      rw [hC] <;> simp only [hF] <;> rfl
  · intro db1 created users hC hF
    cases v <;>
      simp only [handleVisitOf, visitEmailOf, Golang.handleVisit,
        GolangPostgresMulti.handleVisit, hname, hname2] at hC ⊢ <;>
      rw [hC] <;> simp only [hF] <;> rfl

/-- C6 (both variants): for every outcome of the insert and the read, `handleVisit` answers as
follows.  Insert returns an error: status 500, body with the only key `error`, the insert is
the only store call (no read), the store is unchanged.  Insert succeeds and the read returns an
error: status 500, only key `error`, the inserted row stays in the store.  Both succeed: status
200 with exactly the keys hostname, message, new_user, total_users, all_users.  No other
status is produced.  The insert succeeds exactly when its round trip does and no row holds the
email; the read succeeds exactly when its round trip does; so the status is 200 exactly when
all of that holds. -/
theorem handleVisit_outcomes (v : Variant) (db : gorm.DB) (e : VisitEnv) (h : e.randOk) :
    ∃ name res, Golang.generateRandomName e.r1 e.r2 = some name ∧
      handleVisitOf v db e = some res ∧
      ∃ newUser : models.User,
        newUser = { ID := 0, Name := name, Email := visitEmailOf v e.unixNano,
                    CreatedAt := 0, UpdatedAt := 0, DeletedAt := none } ∧
      (∀ db1 u1 err,
        db.Create newUser e.storeNow e.createFault = (db1, u1, some err) →
        res.resp.status = 500 ∧ res.resp.keys = ["error"] ∧
        res.resp = gin.JSON 500 [("error", .str "Failed to create user")] ∧
        res.calls = [.create newUser (some err)] ∧ res.db = db) ∧
      (∀ db1 created users err,
        db.Create newUser e.storeNow e.createFault = (db1, created, none) →
        db1.Find e.findFault = (users, some err) →
        res.resp.status = 500 ∧ res.resp.keys = ["error"] ∧
        res.resp = gin.JSON 500 [("error", .str "Failed to fetch users")] ∧
        res.calls = [.create newUser none, .find (some err)] ∧
        res.db = db ++ [created] ∧ created.Email = visitEmailOf v e.unixNano ∧
        created.Name = name ∧ created.DeletedAt = none) ∧
      (∀ db1 created users,
        db.Create newUser e.storeNow e.createFault = (db1, created, none) →
        db1.Find e.findFault = (users, none) →
        res.resp.status = 200 ∧
        res.resp.keys = ["hostname", "message", "new_user", "total_users", "all_users"] ∧
        res.resp = gin.JSON 200
          [("hostname", .str e.hostname),
           ("message", .str "User created on this visit!"),
           ("new_user", .user created),
           ("total_users", .int users.length),
           ("all_users", .users users)] ∧
        res.calls = [.create newUser none, .find none] ∧
        res.db = db ++ [created] ∧ created.Email = visitEmailOf v e.unixNano ∧
        created.Name = name ∧ created.DeletedAt = none ∧
        users = (db ++ [created]).filter (fun r => r.DeletedAt = none)) ∧
      ((∃ db1 created, db.Create newUser e.storeNow e.createFault = (db1, created, none)) ↔
        (e.createFault = none ∧ ∀ r ∈ db, r.Email ≠ visitEmailOf v e.unixNano)) ∧
      (∀ d : gorm.DB, (d.Find e.findFault).2 = e.findFault) ∧
      (res.resp.status = 200 ∨ res.resp.status = 500) ∧
      (res.resp.status = 200 ↔
        (e.createFault = none ∧ (∀ r ∈ db, r.Email ≠ visitEmailOf v e.unixNano) ∧
          e.findFault = none)) ∧
      (e.createFault ≠ none → res.calls.length = 1 ∧ res.resp.status = 500 ∧ res.db = db) := by
  obtain ⟨name, hname⟩ := Option.isSome_iff_exists.mp
    (generateRandomName_some e.r1 h.1 e.r2 h.2)
  obtain ⟨ev1, ev2, ev3⟩ := handleVisitOf_eval v db e name hname
  have hok := Create_ok_iff db (models.User.mk 0 name (visitEmailOf v e.unixNano) 0 0 none)
    e.storeNow e.createFault rfl
  have hfind : ∀ d : gorm.DB, (d.Find e.findFault).2 = e.findFault :=
    fun d => (Find_shape d e.findFault).1
  rcases hC : db.Create (models.User.mk 0 name (visitEmailOf v e.unixNano) 0 0 none)
    e.storeNow e.createFault with ⟨db1, u1, err⟩
  have hshape := Create_shape db _ e.storeNow e.createFault db1 u1 err hC
  cases err with
  | some err =>
    have hdb : db1 = db := hshape.1 (by simp)
    subst hdb
    have hres := ev1 db1 u1 err hC
    have hno : ¬ (e.createFault = none ∧ ∀ r ∈ db1, r.Email ≠ visitEmailOf v e.unixNano) := by
      intro hcond
      obtain ⟨d, c, hC2⟩ := hok.mpr hcond
      rw [hC] at hC2
      simp at hC2
    refine ⟨name, _, hname, hres, _, rfl, ?_, ?_, ?_, ?_, hfind, ?_, ?_, ?_⟩
    · intro d1 w1 err1 hC1
      rw [hC] at hC1
      simp only [Prod.mk.injEq, Option.some.injEq] at hC1
      obtain ⟨-, -, rfl⟩ := hC1
      exact ⟨rfl, rfl, rfl, rfl, rfl⟩
    · intro d1 c1 us err1 hC1
      rw [hC] at hC1
      simp at hC1
    · intro d1 c1 us hC1
      rw [hC] at hC1
      simp at hC1
    · rw [hC]
      constructor
      · rintro ⟨d, c, hC2⟩
        simp at hC2
      · intro hcond
        exact absurd hcond hno
    · exact Or.inr rfl
    · constructor
      · intro h200
        simp [gin.JSON] at h200
      · rintro ⟨h1, h2, -⟩
        exact absurd ⟨h1, h2⟩ hno
    · intro _
      exact ⟨rfl, rfl, rfl⟩
  | none =>
    obtain ⟨hdb, hEm, hNm, hDel⟩ := hshape.2 rfl
    subst hdb
    have hcond := hok.mp ⟨_, _, hC⟩
    rcases hF : gorm.DB.Find (db ++ [u1]) e.findFault with ⟨users, ferr⟩
    have hferr : ferr = e.findFault := by
      have := hfind (db ++ [u1])
      rw [hF] at this
      exact this
    cases ferr with
    | some ferr =>
      have hres := ev2 _ u1 users ferr hC hF
      refine ⟨name, _, hname, hres, _, rfl, ?_, ?_, ?_, ?_, hfind, ?_, ?_, ?_⟩
      · intro d1 w1 err1 hC1
        rw [hC] at hC1
        simp at hC1
      · intro d1 c1 us err1 hC1 hF1
        rw [hC] at hC1
        simp only [Prod.mk.injEq, and_true] at hC1
        obtain ⟨rfl, rfl⟩ := hC1
        rw [hF] at hF1
        simp only [Prod.mk.injEq, Option.some.injEq] at hF1
        obtain ⟨-, rfl⟩ := hF1
        exact ⟨rfl, rfl, rfl, rfl, rfl, hEm, hNm, hDel⟩
      · intro d1 c1 us hC1 hF1
        rw [hC] at hC1
        simp only [Prod.mk.injEq, and_true] at hC1
        obtain ⟨rfl, rfl⟩ := hC1
        rw [hF] at hF1
        simp at hF1
      · rw [hC]
        exact ⟨fun _ => hcond, fun _ => ⟨_, _, rfl⟩⟩
      · exact Or.inr rfl
      · constructor
        · intro h200
          simp [gin.JSON] at h200
        · rintro ⟨-, -, h3⟩
          rw [← hferr] at h3
          simp at h3
      · intro hne
        exact absurd hcond.1 hne
    | none =>
      have hres := ev3 _ u1 users hC hF
      have husers : users = (db ++ [u1]).filter (fun r => r.DeletedAt = none) := by
        have := (Find_shape (db ++ [u1]) e.findFault).2 hferr.symm
        rw [hF] at this
        exact this
      refine ⟨name, _, hname, hres, _, rfl, ?_, ?_, ?_, ?_, hfind, ?_, ?_, ?_⟩
      · intro d1 w1 err1 hC1
        rw [hC] at hC1
        simp at hC1
      · intro d1 c1 us err1 hC1 hF1
        rw [hC] at hC1
        simp only [Prod.mk.injEq, and_true] at hC1
        obtain ⟨rfl, rfl⟩ := hC1
        rw [hF] at hF1
        simp at hF1
      · intro d1 c1 us hC1 hF1
        rw [hC] at hC1
        simp only [Prod.mk.injEq, and_true] at hC1
        obtain ⟨rfl, rfl⟩ := hC1
        rw [hF] at hF1
        simp only [Prod.mk.injEq, and_true] at hF1
        subst hF1
        exact ⟨rfl, rfl, rfl, rfl, rfl, hEm, hNm, hDel, husers⟩
      · rw [hC]
        exact ⟨fun _ => hcond, fun _ => ⟨_, _, rfl⟩⟩
      · exact Or.inl rfl
      · exact ⟨fun _ => ⟨hcond.1, hcond.2, hferr.symm⟩, fun _ => rfl⟩
      · intro hne
        exact absurd hcond.1 hne

/-- C6 on a store with one live and one soft-deleted row: a visit whose insert and read go
through answers 200 with the five keys and leaves three rows; with a failing read it answers
500 and the row stays; with an email the store already holds the insert is refused, the
answer is 500 and the store keeps its two rows. -/
theorem handleVisit_outcomes_witness :
    sampleVisit.randOk ∧
    (∃ res, handleVisitOf .sqlite sampleStore sampleVisit = some res ∧
      res.resp.status = 200 ∧
      res.resp.keys = ["hostname", "message", "new_user", "total_users", "all_users"] ∧
      res.db.length = 3) ∧
    (handleVisitOf .sqlite sampleStore { sampleVisit with findFault := some "timeout" }).map
        (fun r => (r.resp.status, r.resp.keys, r.db.length, r.callErrs)) =
      some (500, ["error"], 3, [none, some "timeout"]) ∧
    (handleVisitOf .postgres sampleStore { sampleVisit with unixNano := 41 }).map
        (fun r => (r.resp.status, r.resp.keys, r.db.length, r.callErrs)) =
      some (500, ["error"], 2, [some "UNIQUE constraint failed"]) := by
  refine ⟨by decide, ?_, by decide, by decide⟩
  obtain ⟨name, res, -, hres, u, -, -, -, h3, hiff, hfind, -, -, -⟩ :=
    handleVisit_outcomes .sqlite sampleStore sampleVisit (by decide)
  obtain ⟨db1, created, hC⟩ := hiff.mpr ⟨rfl, by decide⟩
  have hF : db1.Find sampleVisit.findFault = ((db1.Find sampleVisit.findFault).1, none) :=
    Prod.ext rfl (hfind db1)
  obtain ⟨hs, hk, -, -, hdb, -⟩ := h3 db1 created _ hC hF
  exact ⟨res, hres, hs, hk, by rw [hdb]; rfl⟩
